import Mathlib

/-!
Verification development for the fmpy client SDK.

This file gives a shallow embedding of the request/response pipeline of the
fmpy package (the FMPClient and FMPClientLegacy classes, the helper functions
in utils.py, and the exception taxonomy in exceptions.py), and proves the
behavioural properties stated in the design specification against it.

Conventions of the embedding:
- Python dictionaries built by the package are modelled as association lists
  that preserve insertion order (Python dicts preserve insertion order, and
  the dicts handled here have unique keys).
- Python None is modelled with Option.
- Fallible Python functions are modelled with Except, carrying the class and
  message of the raised exception.
- External library calls (the JSON decoder of the requests library, the
  pandas CSV reader) are modelled as oracle fields of the HttpResponse
  record: the pipeline only branches on whether they succeed and on the
  produced value, exactly as the Python code does.
-/

namespace Fmpy

/-- Python values as they appear in JSON-decoded API responses. Numbers are
modelled as integers; none of the verified properties depends on the numeric
domain, only on emptiness and container shape. -/
inductive PyJson where
  | null
  | bool (b : Bool)
  | num (n : Int)
  | str (s : String)
  | arr (elems : List PyJson)
  | obj (fields : List (String × PyJson))
  deriving Repr

/-- Python truthiness of a decoded JSON value, as used by the expression
`not response_data` in client.py line 154: None, False, 0, the empty string,
the empty list and the empty dict are falsy. -/
def PyJson.isTruthy : PyJson → Bool
  | .null => false
  | .bool b => b
  | .num n => n != 0
  | .str s => s != ""
  | .arr l => !l.isEmpty
  | .obj l => !l.isEmpty

/-- Models `isinstance(response_data, (list, dict))` from client.py line 154. -/
def PyJson.isListOrDict : PyJson → Bool
  | .arr _ => true
  | .obj _ => true
  | _ => false

/-- The exception classes raised or caught by the package: the hierarchy of
exceptions.py (FMPError and its three subclasses), the Python builtins it
interacts with, and the requests library exception root. -/
inductive PyErrClass where
  | exception
  | valueError
  | typeError
  | oSError
  | requestException
  | fmpError
  | fmpRequestError
  | fmpAPIError
  | fmpValidationError
  deriving Repr, DecidableEq

/-- The strict superclasses of each exception class, from exceptions.py
(FMPError extends Exception; FMPRequestError, FMPAPIError and
FMPValidationError extend FMPError) and the Python standard hierarchy
(ValueError and TypeError extend Exception; the requests library exception
root extends OSError). -/
def superclassesOf : PyErrClass → List PyErrClass
  | .exception => []
  | .valueError => [.exception]
  | .typeError => [.exception]
  | .oSError => [.exception]
  | .requestException => [.oSError, .exception]
  | .fmpError => [.exception]
  | .fmpRequestError => [.fmpError, .exception]
  | .fmpAPIError => [.fmpError, .exception]
  | .fmpValidationError => [.fmpError, .exception]

/-- Models the Python isinstance check between exception classes. -/
def isInstanceOf (c d : PyErrClass) : Bool :=
  c == d || (superclassesOf c).contains d

/-- A raised Python exception: its class and its message. -/
structure PyErr where
  cls : PyErrClass
  msg : String
  deriving Repr, DecidableEq

/-- Models `any(params)` in client.py line 74: iterating a dict yields its
keys, and a string key is truthy exactly when it is non-empty. -/
def pyAnyKeys {α : Type} (params : List (String × α)) : Bool :=
  params.any (fun kv => kv.1 != "")

/-- Models the Python dict item assignment `params[k] = v`: if the key is
present its value is updated in place (keeping its position), otherwise the
entry is appended at the end. -/
def dictSet {α : Type} (params : List (String × α)) (k : String) (v : α) :
    List (String × α) :=
  if params.any (fun kv => kv.1 == k) then
    params.map (fun kv => if kv.1 == k then (k, v) else kv)
  else
    params ++ [(k, v)]

/-- From FMPClient._add_api_key, client.py lines 61-79: if the params argument
is None it is replaced by an empty dict; if `any(params)` holds the key is
assigned into the dict, otherwise the dict is replaced by a fresh singleton
dict holding only the credential. -/
def addApiKey {α : Type} (apiKey : α) (params : Option (List (String × α))) :
    List (String × α) :=
  let p := params.getD []
  if pyAnyKeys p then dictSet p "apikey" apiKey
  else [("apikey", apiKey)]

/-- From FMPClientLegacy._add_api_key, client_legacy.py lines 52-70; the body
is a verbatim duplicate of the stable client version. -/
def addApiKeyLegacy {α : Type} (apiKey : α) (params : Option (List (String × α))) :
    List (String × α) :=
  let p := params.getD []
  if pyAnyKeys p then dictSet p "apikey" apiKey
  else [("apikey", apiKey)]

/-- The message of the ValueError raised by FMPClient.__init__ when no
credential can be resolved, client.py lines 43-45. -/
def apiKeyRequiredMsg : String :=
  "API key is required. Pass it as api_key parameter or set FMP_API_KEY environment variable."

/-- Models the Python expression `api_key or os.environ.get(\x22FMP_API_KEY\x22)`
from client.py line 41: a truthy (non-empty) explicit key wins, otherwise the
environment lookup result (None when the variable is unset) is used. -/
def pyOrStr (a b : Option String) : Option String :=
  match a with
  | some s => if s == "" then b else some s
  | none => b

/-- From FMPClient.__init__, client.py lines 33-45: resolve the credential
from the explicit argument and the FMP_API_KEY environment variable, raising
a ValueError when neither yields a truthy value. The whole resolution is a
pure computation performed before the HTTP session is created, so no network
activity can have occurred when the error is raised. -/
def resolveApiKey (apiKey : Option String) (envApiKey : Option String) :
    Except PyErr String :=
  match pyOrStr apiKey envApiKey with
  | some s => if s == "" then .error ⟨.valueError, apiKeyRequiredMsg⟩ else .ok s
  | none => .error ⟨.valueError, apiKeyRequiredMsg⟩

/-- From clean_params, utils.py lines 83-93: the dict comprehension keeps
exactly the entries whose value is not None. -/
def clean_params {α : Type} (params : List (String × Option α)) :
    List (String × Option α) :=
  params.filter (fun kv => kv.2.isSome)

/-- A row/column table, modelling a pandas DataFrame to the extent the
package observes it: an ordered list of column names and rows of cells,
a missing cell (a record lacking a column key) being none (NaN). -/
structure Table where
  cols : List String
  rows : List (List (Option PyJson))
  deriving Repr

/-- Appends a key to an accumulator unless already present; the building
block of column construction by first appearance. -/
def insKey (acc : List String) (k : String) : List String :=
  if acc.contains k then acc else acc ++ [k]

/-- The union of the keys of a list of record mappings, in order of first
appearance. -/
def unionKeys (records : List (List (String × PyJson))) : List String :=
  records.foldl (fun acc r => r.foldl (fun a kv => insKey a kv.1) acc) []

/-- First value stored under a column key in a record, none when absent. -/
def lookupField (r : List (String × PyJson)) (c : String) : Option PyJson :=
  (r.find? (fun kv => kv.1 == c)).map (fun kv => kv.2)

/-- Models pandas DataFrame construction from a list of record mappings, the
only shape the package hands to it (response_to_df passes a single dict or a
list of dicts decoded from JSON): columns are the union of the record keys in
order of first appearance, one row per record, missing keys becoming NaN. -/
def dataFrameOfRecords (records : List (List (String × PyJson))) : Table :=
  let cs := unionKeys records
  ⟨cs, records.map (fun r => cs.map (lookupField r))⟩

/-- The argument of response_to_df as dispatched by its isinstance checks:
a dict, a list (whose elements are the record mappings decoded from JSON),
or a value of any other type. -/
inductive RespValue where
  | dict (fields : List (String × PyJson))
  | list (records : List (List (String × PyJson)))
  | other (v : PyJson)
  deriving Repr

/-- From response_to_df, utils.py lines 61-80: a dict becomes the one-row
DataFrame of the singleton record list; an empty list becomes the empty
DataFrame; a non-empty list becomes the DataFrame of its records; any other
type raises a TypeError. -/
def response_to_df (response : RespValue) : Except PyErr Table :=
  match response with
  | .dict d => .ok (dataFrameOfRecords [d])
  | .list rs =>
      if rs.isEmpty then .ok ⟨[], []⟩
      else .ok (dataFrameOfRecords rs)
  | .other _ =>
      .error ⟨.typeError, "Response must be a dictionary or a list of dictionaries"⟩

/-- The double-quote character, first element of the list literal at
client.py line 134. -/
def quoteChar : Char := Char.ofNat 34

/-- A successful HTTP response as observed by the decoding half of _request:
the body text together with the outcomes of the two external parsers the code
may invoke on it. jsonResult is the outcome of response.json (none modelling
the ValueError the JSON decoder raises on invalid JSON); csvResult is the
outcome of pandas read_csv on the body (the error case carrying the message
of the exception it raised). -/
structure HttpResponse where
  text : String
  jsonResult : Option PyJson
  csvResult : Except String Table

/-- Models the Python slice text[:500] used when reporting an undecodable
body, client.py lines 145 and 150. -/
def pySlice500 (s : String) : String :=
  String.mk (s.toList.take 500)

/-- The FMPAPIError message raised when a body is neither JSON nor sniffable
CSV, client.py lines 144-151. -/
def invalidJsonMsg (text : String) : String :=
  "Invalid JSON response: " ++ pySlice500 text ++ "..."

/-- The CSV sniff condition of client.py lines 132-136: the body is
non-empty, starts with a double quote or a comma, and contains a comma. -/
def csvSniff (text : String) : Bool :=
  decide (text.length > 0) &&
    (text.front == quoteChar || text.front == ',') &&
    text.contains ','

/-- The decoded result of the pipeline: a JSON value or a DataFrame. -/
inductive DecodedBody where
  | json (v : PyJson)
  | table (t : Table)

/-- From _request, client.py lines 128-157, the JSON branch (expect_csv
false): on JSON success, an empty non-container value is normalized to an
empty list and anything else is returned unchanged; on JSON failure the body
is sniffed for CSV shape, the pandas parse is attempted when the sniff
passes, and an FMPAPIError embedding a truncated body is raised when the
sniff fails or the pandas parse also fails. -/
def decodeJsonBody (resp : HttpResponse) : Except PyErr DecodedBody :=
  match resp.jsonResult with
  | some d =>
      if !d.isTruthy && !d.isListOrDict then .ok (.json (.arr []))
      else .ok (.json d)
  | none =>
      if csvSniff resp.text then
        match resp.csvResult with
        | .ok t => .ok (.table t)
        | .error _ => .error ⟨.fmpAPIError, invalidJsonMsg resp.text⟩
      else .error ⟨.fmpAPIError, invalidJsonMsg resp.text⟩

/-- From _request, client.py lines 117-157: the CSV branch (expect_csv true)
parses the body with pandas and wraps a parse failure in an FMPAPIError;
the JSON branch is decodeJsonBody. -/
def decodeBody (expectCsv : Bool) (resp : HttpResponse) : Except PyErr DecodedBody :=
  if expectCsv then
    match resp.csvResult with
    | .ok t => .ok (.table t)
    | .error e => .error ⟨.fmpAPIError, "Failed to parse CSV response: " ++ e⟩
  else decodeJsonBody resp

/-- From _request, client.py lines 159-166: the except clauses at the
pipeline boundary. A requests-library exception is wrapped as an
FMPRequestError; an exception that is an instance of FMPError is re-raised
unchanged; anything else is wrapped as an FMPRequestError carrying the
original message. -/
def pipelineHandler (e : PyErr) : PyErr :=
  if isInstanceOf e.cls .requestException then
    ⟨.fmpRequestError, "Request failed: " ++ e.msg⟩
  else if isInstanceOf e.cls .fmpError then e
  else ⟨.fmpRequestError, "Unexpected error: " ++ e.msg⟩

/-- The outcome of the HTTP dispatch inside the try block of _request:
either a response (after raise_for_status passed) or a raised exception
(connection failures, non-2xx statuses, or any unexpected exception from
the dispatch). -/
inductive HttpOutcome where
  | success (resp : HttpResponse)
  | raised (e : PyErr)

/-- The body of the try block of _request, client.py lines 111-157: dispatch
then decode. -/
def runPipelineBody (expectCsv : Bool) (o : HttpOutcome) : Except PyErr DecodedBody :=
  match o with
  | .raised e => .error e
  | .success resp => decodeBody expectCsv resp

/-- The whole of _request after URL and credential preparation, client.py
lines 111-166: every exception leaving the try block passes through the
boundary handler exactly once. -/
def runPipeline (expectCsv : Bool) (o : HttpOutcome) : Except PyErr DecodedBody :=
  match runPipelineBody expectCsv o with
  | .ok v => .ok v
  | .error e => .error (pipelineHandler e)

/-- From FMPClientLegacy._request, client_legacy.py lines 119-148, the JSON
branch; the body is a verbatim duplicate of the stable client version. -/
def decodeJsonBodyLegacy (resp : HttpResponse) : Except PyErr DecodedBody :=
  match resp.jsonResult with
  | some d =>
      if !d.isTruthy && !d.isListOrDict then .ok (.json (.arr []))
      else .ok (.json d)
  | none =>
      if csvSniff resp.text then
        match resp.csvResult with
        | .ok t => .ok (.table t)
        | .error _ => .error ⟨.fmpAPIError, invalidJsonMsg resp.text⟩
      else .error ⟨.fmpAPIError, invalidJsonMsg resp.text⟩

/-- From FMPClientLegacy._request, client_legacy.py lines 108-148: the CSV
and JSON decode branches, duplicating the stable client. -/
def decodeBodyLegacy (expectCsv : Bool) (resp : HttpResponse) : Except PyErr DecodedBody :=
  if expectCsv then
    match resp.csvResult with
    | .ok t => .ok (.table t)
    | .error e => .error ⟨.fmpAPIError, "Failed to parse CSV response: " ++ e⟩
  else decodeJsonBodyLegacy resp

/-- From FMPClientLegacy._request, client_legacy.py lines 150-157: the except
clauses at the pipeline boundary, duplicating the stable client. -/
def pipelineHandlerLegacy (e : PyErr) : PyErr :=
  if isInstanceOf e.cls .requestException then
    ⟨.fmpRequestError, "Request failed: " ++ e.msg⟩
  else if isInstanceOf e.cls .fmpError then e
  else ⟨.fmpRequestError, "Unexpected error: " ++ e.msg⟩

/-- The whole of FMPClientLegacy._request after URL and credential
preparation, client_legacy.py lines 102-157. -/
def runPipelineLegacy (expectCsv : Bool) (o : HttpOutcome) : Except PyErr DecodedBody :=
  match (match o with
         | .raised e => .error e
         | .success resp => decodeBodyLegacy expectCsv resp : Except PyErr DecodedBody) with
  | .ok v => .ok v
  | .error e => .error (pipelineHandlerLegacy e)

/-- From config.py: the base URL of the stable API generation. -/
def BASE_URL : String := "https://financialmodelingprep.com/stable/"

/-- Models urllib.parse.urljoin restricted to the shape used by both
clients: a base URL ending in a slash joined with a relative endpoint path
(no scheme, not starting with a slash) appends the path to the directory of
the base, which is the base itself since the base ends in a slash. -/
def urljoin (base rel : String) : String :=
  if rel.isEmpty then base
  else String.mk (base.toList.reverse.dropWhile (fun c => c != '/')).reverse ++ rel

/-- From FMPClient._get_url, client.py lines 49-59. -/
def getUrl (endpoint : String) : String := urljoin BASE_URL endpoint

/-- Scan of the Python method str.replace: every non-overlapping occurrence
of a non-empty pattern is replaced from left to right. The fuel argument
bounds the scan by the length of the scanned list. -/
def pyReplaceAux (pat sub : List Char) : Nat → List Char → List Char
  | 0, s => s
  | fuel + 1, s =>
      if pat.isPrefixOf s && !pat.isEmpty then
        sub ++ pyReplaceAux pat sub fuel (s.drop pat.length)
      else
        match s with
        | [] => []
        | c :: cs => c :: pyReplaceAux pat sub fuel cs

/-- Models the Python method str.replace on strings. -/
def pyReplace (s pat sub : String) : String :=
  String.mk (pyReplaceAux pat.toList sub.toList s.toList.length s.toList)

/-- From FMPClientLegacy.__init__, client_legacy.py lines 36-38: the legacy
base URL replaces the stable path segment with the v3 path segment. -/
def legacyBaseUrl : String := pyReplace BASE_URL "/stable/" "/api/v3/"

/-- From FMPClientLegacy._get_url, client_legacy.py lines 40-50. -/
def getUrlLegacy (endpoint : String) : String := urljoin legacyBaseUrl endpoint

/-- Number of days in a month of the proleptic Gregorian calendar, as used
by the datetime constructor that strptime calls. -/
def daysInMonth (y m : Nat) : Nat :=
  if m == 2 then
    (if y % 4 == 0 && (y % 100 != 0 || y % 400 == 0) then 29 else 28)
  else if m == 4 || m == 6 || m == 9 || m == 11 then 30
  else 31

/-- Splits a character list at every occurrence of a separator character;
the resulting parts never contain the separator and are never fewer than
one. -/
def splitOnChar (sep : Char) : List Char → List (List Char)
  | [] => [[]]
  | c :: cs =>
      match splitOnChar sep cs with
      | [] => if c == sep then [[], [c]] else [[c]]
      | r :: rs => if c == sep then [] :: r :: rs else (c :: r) :: rs

/-- Numeric value of a list of decimal digit characters. -/
def digitsToNat (l : List Char) : Nat :=
  l.foldl (fun n c => n * 10 + (c.toNat - 48)) 0

/-- From validate_date, utils.py lines 6-20: models
datetime.strptime(date_str, percent-Y dash percent-m dash percent-d)
succeeding. The strptime pattern requires exactly four digits for the year,
one or two digits valued 1..12 for the month, one or two digits valued 1..31
for the day, nothing else in the string, and the datetime constructor then
requires the year to be at least 1 and the day to fit the month. -/
def validate_date (s : String) : Bool :=
  match splitOnChar '-' s.toList with
  | [ys, ms, ds] =>
      decide (ys.length = 4) && ys.all (fun c => c.isDigit) &&
      decide (0 < ms.length) && decide (ms.length ≤ 2) && ms.all (fun c => c.isDigit) &&
      decide (0 < ds.length) && decide (ds.length ≤ 2) && ds.all (fun c => c.isDigit) &&
      (let y := digitsToNat ys
       let m := digitsToNat ms
       let d := digitsToNat ds
       decide (1 ≤ y) && decide (1 ≤ m) && decide (m ≤ 12) &&
       decide (1 ≤ d) && decide (d ≤ daysInMonth y m))
  | _ => false

/-- A date argument of a facade method: a string, a datetime or date object
(only its calendar fields are observable through strftime), or a value of
any other type, whose Python truthiness is recorded because the facades
branch on it. -/
inductive DateParam where
  | str (s : String)
  | dateObj (y m d : Nat)
  | other (truthy : Bool)
  deriving Repr, DecidableEq

/-- Left-pads a decimal rendering with zeros. -/
def padZeros (width n : Nat) : String :=
  let s := toString n
  String.mk (List.replicate (width - s.length) '0') ++ s

/-- Models strftime with the year-month-day format on a date object:
zero-padded four-digit year, two-digit month, two-digit day. -/
def strftimeYMD (y m d : Nat) : String :=
  padZeros 4 y ++ "-" ++ padZeros 2 m ++ "-" ++ padZeros 2 d

/-- From format_date, utils.py lines 23-40: a valid date string is returned
unchanged, an invalid one raises ValueError, a datetime or date object is
formatted, and any other type raises TypeError. -/
def format_date : DateParam → Except PyErr String
  | .str s =>
      if validate_date s then .ok s
      else .error ⟨.valueError, "Invalid date format: " ++ s ++ ". Expected: YYYY-MM-DD"⟩
  | .dateObj y m d => .ok (strftimeYMD y m d)
  | .other _ => .error ⟨.typeError, "Date must be a string or datetime/date object"⟩

/-- Python truthiness of a date argument: None is handled by the callers
(the Option layer); a string is truthy when non-empty; datetime and date
objects are always truthy; other objects carry their own truthiness. -/
def dateParamTruthy : DateParam → Bool
  | .str s => s != ""
  | .dateObj _ _ _ => true
  | .other t => t

/-- A symbols argument of a facade method: a string, a list of strings, or
a value of any other type. -/
inductive SymbolsParam where
  | str (s : String)
  | list (l : List String)
  | other
  deriving Repr, DecidableEq

/-- From validate_symbols, utils.py lines 43-58: a string passes through,
a list is comma-joined, anything else raises TypeError. -/
def validate_symbols : SymbolsParam → Except PyErr String
  | .str s => .ok s
  | .list l => .ok (String.intercalate "," l)
  | .other => .error ⟨.typeError, "Symbols must be a string or a list of strings"⟩

/-- One conditional date assignment of ChartEndpoints.basic: the statement
`if d: params[key] = format_date(d)`, where a raised ValueError or TypeError
from format_date propagates. -/
def addDateParam (params : List (String × String)) (key : String)
    (p : Option DateParam) : Except PyErr (List (String × String)) :=
  match p with
  | some dp =>
      if dateParamTruthy dp then
        match format_date dp with
        | .ok s => .ok (dictSet params key s)
        | .error e => .error e
      else .ok params
  | none => .ok params

/-- From ChartEndpoints.basic, fmpy/endpoints/chart.py lines 39-46: the
parameter mapping built before the network call. The symbol is stored, then
each of the two optional dates is formatted and stored only when the
argument is truthy; a ValueError or TypeError from format_date aborts the
call before any network activity. -/
def chartBasicParams (symbol : String) (fromDate toDate : Option DateParam) :
    Except PyErr (List (String × String)) :=
  match addDateParam [("symbol", symbol)] "from" fromDate with
  | .error e => .error e
  | .ok params =>
      match addDateParam params "to" toDate with
      | .error e => .error e
      | .ok params => .ok params

/-- From NewsEndpoints.fmp_articles, fmpy_stark/endpoints/news.py line 36:
the parameter mapping handed to the request pipeline, with None-valued
entries stripped by clean_params. -/
def fmpArticlesParams (page size : Option Int) : List (String × Option Int) :=
  clean_params [("page", page), ("size", size)]

/-- From fmpy_stark/__init__.py: the names the package exports. -/
def packageExports : List String :=
  ["Client", "FMPClient", "ClientLegacy", "FMPClientLegacy",
   "FMPError", "FMPRequestError", "FMPAPIError", "FMPValidationError",
   "validate_date", "format_date", "validate_symbols", "response_to_df",
   "clean_params"]

/-! Helper lemmas about the dict operations. -/

lemma mem_dictSet_of_ne {α : Type} {kv : String × α} {p : List (String × α)}
    (k : String) (v : α) (h : kv ∈ p) (hne : kv.1 ≠ k) : kv ∈ dictSet p k v := by
  unfold dictSet
  split
  · refine List.mem_map.mpr ⟨kv, h, ?_⟩
    simp [hne]
  · exact List.mem_append_left _ h

lemma filter_map_update_eq_nil {α : Type} (k : String) (v : α)
    (p : List (String × α)) (h : ∀ kv ∈ p, kv.1 ≠ k) :
    (p.map (fun kv => if kv.1 == k then (k, v) else kv)).filter
      (fun kv => kv.1 == k) = [] := by
  rw [List.filter_eq_nil_iff]
  intro a ha
  rcases List.mem_map.mp ha with ⟨kv, hkv, rfl⟩
  have := h kv hkv
  simp [this]

lemma filter_map_update {α : Type} (k : String) (v : α) :
    ∀ (p : List (String × α)), (p.map Prod.fst).Nodup →
      p.any (fun kv => kv.1 == k) = true →
      (p.map (fun kv => if kv.1 == k then (k, v) else kv)).filter
        (fun kv => kv.1 == k) = [(k, v)] := by
  intro p
  induction p with
  | nil => intro _ hany; simp at hany
  | cons hd tl ih =>
      intro hnd hany
      by_cases hk : hd.1 = k
      · have htl : ∀ kv ∈ tl, kv.1 ≠ k := by
          intro kv hkv hEq
          have hhd : hd.1 ∉ tl.map Prod.fst := (List.nodup_cons.mp hnd).1
          exact hhd (hk ▸ hEq ▸ List.mem_map_of_mem Prod.fst hkv)
        simp only [List.map_cons,
          show ((fun kv => if kv.1 == k then (k, v) else kv) hd) = (k, v) from by
            simp [hk]]
        rw [List.filter_cons_of_pos (by simp)]
        rw [filter_map_update_eq_nil k v tl htl]
      · have hnd' : (tl.map Prod.fst).Nodup := (List.nodup_cons.mp hnd).2
        have hany' : tl.any (fun kv => kv.1 == k) = true := by
          rcases List.any_eq_true.mp hany with ⟨kv, hkv, hkvk⟩
          rcases List.mem_cons.mp hkv with rfl | hmem
          · exact absurd (by simpa using hkvk) hk
          · exact List.any_eq_true.mpr ⟨kv, hmem, hkvk⟩
        simp only [List.map_cons,
          show ((fun kv => if kv.1 == k then (k, v) else kv) hd) = hd from by
            simp [hk]]
        rw [List.filter_cons_of_neg (by simp [hk])]
        exact ih hnd' hany'

lemma filter_dictSet {α : Type} (k : String) (v : α) (p : List (String × α))
    (hnd : (p.map Prod.fst).Nodup) :
    (dictSet p k v).filter (fun kv => kv.1 == k) = [(k, v)] := by
  unfold dictSet
  by_cases hany : p.any (fun kv => kv.1 == k) = true
  · rw [if_pos hany]
    exact filter_map_update k v p hnd hany
  · rw [if_neg hany]
    have hnone : ∀ kv ∈ p, kv.1 ≠ k := by
      intro kv hkv hEq
      exact hany (List.any_eq_true.mpr ⟨kv, hkv, by simp [hEq]⟩)
    have : p.filter (fun kv => kv.1 == k) = [] := by
      rw [List.filter_eq_nil_iff]
      intro a ha
      simp [hnone a ha]
    simp [List.filter_append, this]

/-- C1 counterexample: merging the credential into the mapping holding the
single entry with the empty-string key discards that entry, although its key
differs from the credential key. The `any(params)` emptiness test of
_add_api_key is false for a dict whose keys are all falsy, so the branch that
replaces the whole dict by the fresh credential singleton is taken. -/
theorem c1_counterexample :
    ("", (1 : Int)) ∈ [("", (1 : Int))] ∧
    ("" : String) ≠ "apikey" ∧
    addApiKey (7 : Int) (some [("", (1 : Int))]) = [("apikey", 7)] ∧
    ("", (1 : Int)) ∉ addApiKey (7 : Int) (some [("", (1 : Int))]) := by
  refine ⟨List.mem_singleton.mpr rfl, by decide, rfl, by decide⟩

/-- C1 (amended): merging the credential into an absent or empty mapping
yields exactly the credential singleton; for every mapping with unique keys
at least one of which is a non-empty string, merging preserves every
caller-supplied entry whose key differs from the credential key and leaves
exactly one entry under the credential key, holding the stored key; merging
into a one-entry mapping whose key is non-empty and differs from the
credential key appends the credential after that entry. -/
theorem c1_credential_merge {α : Type} (key : α) (p : List (String × α))
    (hnd : (p.map Prod.fst).Nodup) (hne : pyAnyKeys p = true) :
    addApiKey key (none : Option (List (String × α))) = [("apikey", key)] ∧
    addApiKey key (some ([] : List (String × α))) = [("apikey", key)] ∧
    (∀ kv ∈ p, kv.1 ≠ "apikey" → kv ∈ addApiKey key (some p)) ∧
    (addApiKey key (some p)).filter (fun kv => kv.1 == "apikey") =
      [("apikey", key)] ∧
    (∀ (a : String) (v : α), a ≠ "" → a ≠ "apikey" →
      addApiKey key (some [(a, v)]) = [(a, v), ("apikey", key)]) := by
  refine ⟨rfl, rfl, ?_, ?_, ?_⟩
  · intro kv hkv hk
    unfold addApiKey
    simp only [Option.getD_some, hne, if_true]
    exact mem_dictSet_of_ne "apikey" key hkv hk
  · unfold addApiKey
    simp only [Option.getD_some, hne, if_true]
    exact filter_dictSet "apikey" key p hnd
  · intro a v ha hak
    unfold addApiKey
    have h1 : pyAnyKeys [(a, v)] = true := by simp [pyAnyKeys, ha]
    simp only [Option.getD_some, h1, if_true]
    unfold dictSet
    have h2 : (([(a, v)] : List (String × α)).any (fun kv => kv.1 == "apikey")) = false := by
      simp [hak]
    rw [h2]
    simp

/-- Closed instance of c1_credential_merge at a concrete mapping. -/
theorem c1_credential_merge_witness :
    (∀ kv ∈ [("a", (1 : Int))], kv.1 ≠ "apikey" →
        kv ∈ addApiKey (7 : Int) (some [("a", (1 : Int))])) ∧
    (addApiKey (7 : Int) (some [("a", (1 : Int))])).filter
      (fun kv => kv.1 == "apikey") = [("apikey", 7)] :=
  ⟨(c1_credential_merge (7 : Int) [("a", (1 : Int))] (by decide) (by decide)).2.2.1,
   (c1_credential_merge (7 : Int) [("a", (1 : Int))] (by decide) (by decide)).2.2.2.1⟩

lemma csvSniff_iff (text : String) :
    csvSniff text = true ↔
      (0 < text.length ∧ (text.front = quoteChar ∨ text.front = ',') ∧
        text.contains ',' = true) := by
  simp [csvSniff, Bool.and_eq_true, Bool.or_eq_true, beq_iff_eq,
    decide_eq_true_eq, and_assoc]

lemma pySlice500_length_le (s : String) : (pySlice500 s).length ≤ 500 := by
  show (s.toList.take 500).length ≤ 500
  exact List.length_take_le _ _

/-- C2: when the JSON parse of a non-table response fails, the CSV fallback
is attempted exactly when the body is non-empty, starts with a double quote
or a comma, and contains a comma (returning the parsed table when the pandas
parse succeeds); in every other case, and when the fallback parse itself
fails, an FMPAPIError is raised whose message embeds the body truncated to
at most 500 characters, and no plain JSON value (in particular no empty
result) is ever returned. -/
theorem c2_json_failure_fallback (resp : HttpResponse)
    (hj : resp.jsonResult = none) :
    (¬ (0 < resp.text.length ∧ (resp.text.front = quoteChar ∨ resp.text.front = ',') ∧
          resp.text.contains ',' = true) →
        decodeJsonBody resp =
          .error ⟨.fmpAPIError, "Invalid JSON response: " ++ pySlice500 resp.text ++ "..."⟩) ∧
    ((0 < resp.text.length ∧ (resp.text.front = quoteChar ∨ resp.text.front = ',') ∧
          resp.text.contains ',' = true) →
        (∀ t, resp.csvResult = .ok t → decodeJsonBody resp = .ok (.table t)) ∧
        (∀ e, resp.csvResult = .error e → decodeJsonBody resp =
          .error ⟨.fmpAPIError, "Invalid JSON response: " ++ pySlice500 resp.text ++ "..."⟩)) ∧
    (pySlice500 resp.text).length ≤ 500 ∧
    (∀ v, decodeJsonBody resp ≠ .ok (.json v)) := by
  have hmsg : invalidJsonMsg resp.text =
      "Invalid JSON response: " ++ pySlice500 resp.text ++ "..." := rfl
  refine ⟨?_, ?_, pySlice500_length_le resp.text, ?_⟩
  · intro h
    have hcs : csvSniff resp.text = false := by
      cases hc : csvSniff resp.text
      · rfl
      · exact absurd ((csvSniff_iff resp.text).mp hc) h
    simp [decodeJsonBody, hj, hcs, hmsg]
  · intro h
    have hcs : csvSniff resp.text = true := (csvSniff_iff resp.text).mpr h
    constructor
    · intro t ht
      simp [decodeJsonBody, hj, hcs, ht]
    · intro e he
      simp [decodeJsonBody, hj, hcs, he, hmsg]
  · intro v
    unfold decodeJsonBody
    rw [hj]
    cases hcs : csvSniff resp.text
    · simp
    · cases hc : resp.csvResult <;> simp

/-- Closed instance of c2_json_failure_fallback: a body that is not JSON and
does not pass the sniff raises the truncating FMPAPIError. -/
theorem c2_json_failure_fallback_witness :
    decodeJsonBody ⟨"oops", none, .error "bad line"⟩ =
      .error ⟨.fmpAPIError, "Invalid JSON response: " ++ pySlice500 "oops" ++ "..."⟩ :=
  (c2_json_failure_fallback ⟨"oops", none, .error "bad line"⟩ rfl).1 (by decide)

/-- C6: when the JSON parse of a non-table response succeeds, an empty
decoded value that is not a list or dict is normalized to the empty list,
and every other decoded value is returned unchanged. -/
theorem c6_empty_normalization (resp : HttpResponse) (d : PyJson)
    (hj : resp.jsonResult = some d) :
    (d.isTruthy = false → d.isListOrDict = false →
        decodeJsonBody resp = .ok (.json (.arr []))) ∧
    ((d.isTruthy = true ∨ d.isListOrDict = true) →
        decodeJsonBody resp = .ok (.json d)) := by
  constructor
  · intro ht hl
    simp [decodeJsonBody, hj, ht, hl]
  · intro h
    rcases h with ht | hl
    · simp [decodeJsonBody, hj, ht]
    · simp [decodeJsonBody, hj, hl]

/-- Closed instance of c6_empty_normalization: the decoded value None (empty,
not a container) is normalized to the empty list, and a decoded empty list
is returned unchanged. -/
theorem c6_empty_normalization_witness :
    decodeJsonBody ⟨"null", some .null, .error "x"⟩ = .ok (.json (.arr [])) ∧
    decodeJsonBody ⟨"[]", some (.arr []), .error "x"⟩ = .ok (.json (.arr [])) :=
  ⟨(c6_empty_normalization ⟨"null", some .null, .error "x"⟩ .null rfl).1 rfl rfl,
   (c6_empty_normalization ⟨"[]", some (.arr []), .error "x"⟩ (.arr []) rfl).2
     (Or.inr rfl)⟩

/-- C3: every exception crossing the boundary of _request is classified by
the two except clauses: an exception that is an instance of FMPError
propagates unchanged; any other exception is wrapped as an FMPRequestError
carrying the original message; hence every exceptional exit of the pipeline
is an instance of FMPError. -/
theorem c3_boundary_handler :
    (∀ e : PyErr, isInstanceOf e.cls .fmpError = true → pipelineHandler e = e) ∧
    (∀ e : PyErr, isInstanceOf e.cls .fmpError = false →
        pipelineHandler e = ⟨.fmpRequestError, "Request failed: " ++ e.msg⟩ ∨
        pipelineHandler e = ⟨.fmpRequestError, "Unexpected error: " ++ e.msg⟩) ∧
    (∀ e : PyErr, isInstanceOf (pipelineHandler e).cls .fmpError = true) ∧
    (∀ (b : Bool) (o : HttpOutcome) (err : PyErr),
        runPipeline b o = .error err → isInstanceOf err.cls .fmpError = true) := by
  have h3 : ∀ e : PyErr, isInstanceOf (pipelineHandler e).cls .fmpError = true := by
    intro e
    rcases e with ⟨c, m⟩
    cases c <;> rfl
  have key : ∀ c : PyErrClass, isInstanceOf c .fmpError = true →
      isInstanceOf c .requestException = false := by
    intro c
    cases c <;> first | (intro _; rfl) | (intro h; exact Bool.noConfusion h)
  refine ⟨?_, ?_, h3, ?_⟩
  · intro e h
    simp [pipelineHandler, key e.cls h, h]
  · intro e h
    by_cases hr : isInstanceOf e.cls .requestException = true
    · exact Or.inl (by simp [pipelineHandler, hr])
    · have hr' : isInstanceOf e.cls .requestException = false := by
        simpa using hr
      exact Or.inr (by simp [pipelineHandler, hr', h])
  · intro b o err h
    unfold runPipeline at h
    cases hb : runPipelineBody b o with
    | ok v => rw [hb] at h; cases h
    | error e =>
        rw [hb] at h
        cases h
        exact h3 e

/-- Closed instances of c3_boundary_handler: an FMPAPIError passes through
unchanged, a TypeError is wrapped, and a raised transport exception leaves
the pipeline as an FMPError instance. -/
theorem c3_boundary_handler_witness :
    pipelineHandler ⟨.fmpAPIError, "boom"⟩ = ⟨.fmpAPIError, "boom"⟩ ∧
    (pipelineHandler ⟨.typeError, "x"⟩ = ⟨.fmpRequestError, "Request failed: x"⟩ ∨
      pipelineHandler ⟨.typeError, "x"⟩ = ⟨.fmpRequestError, "Unexpected error: x"⟩) ∧
    isInstanceOf
      (pipelineHandler ⟨.requestException, "refused"⟩).cls .fmpError = true ∧
    isInstanceOf (⟨.fmpRequestError, "Unexpected error: x"⟩ : PyErr).cls .fmpError = true :=
  ⟨c3_boundary_handler.1 ⟨.fmpAPIError, "boom"⟩ (by decide),
   c3_boundary_handler.2.1 ⟨.typeError, "x"⟩ (by decide),
   c3_boundary_handler.2.2.1 ⟨.requestException, "refused"⟩,
   c3_boundary_handler.2.2.2 false (.raised ⟨.typeError, "x"⟩)
     ⟨.fmpRequestError, "Unexpected error: x"⟩ rfl⟩

/-- C4: a non-empty explicit key is stored as the credential regardless of
the environment; with no explicit key the environment variable decides the
outcome (its non-empty value is stored, otherwise the construction fails);
and with neither source usable the construction raises the ValueError of
__init__ before the HTTP session exists, so before any network activity. -/
theorem c4_credential_resolution (env : Option String) (s : String)
    (hs : s ≠ "") :
    resolveApiKey (some s) env = .ok s ∧
    resolveApiKey none env =
      (match env with
       | some t =>
           if t = "" then .error ⟨.valueError, apiKeyRequiredMsg⟩ else .ok t
       | none => .error ⟨.valueError, apiKeyRequiredMsg⟩) ∧
    resolveApiKey none none = .error ⟨.valueError, apiKeyRequiredMsg⟩ ∧
    resolveApiKey (some "") none = .error ⟨.valueError, apiKeyRequiredMsg⟩ := by
  refine ⟨?_, ?_, rfl, rfl⟩
  · simp [resolveApiKey, pyOrStr, hs]
  · cases env with
    | none => rfl
    | some t =>
        by_cases ht : t = ""
        · simp [resolveApiKey, pyOrStr, ht]
        · simp [resolveApiKey, pyOrStr, ht]

/-- Closed instance of c4_credential_resolution: the explicit key wins over
a set environment variable, and an unset environment with no explicit key
fails. -/
theorem c4_credential_resolution_witness :
    resolveApiKey (some "explicit") (some "fromenv") = .ok "explicit" ∧
    resolveApiKey none none = .error ⟨.valueError, apiKeyRequiredMsg⟩ :=
  ⟨(c4_credential_resolution (some "fromenv") "explicit" (by decide)).1,
   (c4_credential_resolution (some "fromenv") "explicit" (by decide)).2.2.1⟩

/-- C7: clean_params keeps exactly the entries whose value is not None (so
its output never contains a None-valued entry), and the parameter mapping
the fmp_articles facade hands to the request pipeline never contains a
None-valued entry, whatever optional arguments the caller passed. -/
theorem c7_no_none_params {α : Type} (params : List (String × Option α))
    (page size : Option Int) :
    (∀ kv ∈ clean_params params, kv.2 ≠ none) ∧
    (∀ kv : String × Option α, kv ∈ clean_params params ↔
        kv ∈ params ∧ kv.2 ≠ none) ∧
    (∀ kv ∈ fmpArticlesParams page size, kv.2 ≠ none) := by
  have hmem : ∀ (β : Type) (l : List (String × Option β)) (kv : String × Option β),
      kv ∈ clean_params l ↔ kv ∈ l ∧ kv.2 ≠ none := by
    intro β l kv
    unfold clean_params
    rw [List.mem_filter]
    simp [Option.isSome_iff_ne_none]
  refine ⟨fun kv h => ((hmem α params kv).mp h).2, hmem α params, ?_⟩
  intro kv h
  exact ((hmem Int [("page", page), ("size", size)] kv).mp h).2

/-- Closed instance of c7_no_none_params: cleaning a mapping with one None
entry keeps exactly the non-None entry, and the facade mapping built from an
omitted size contains no None entry. -/
theorem c7_no_none_params_witness :
    (("limit", (none : Option Int)) ∈
        ([("limit", (none : Option Int)), ("page", some 2)] : List (String × Option Int)) ∧
      ("limit", (none : Option Int)) ∉
        clean_params [("limit", (none : Option Int)), ("page", some 2)]) ∧
    (∀ kv ∈ fmpArticlesParams (some 3) none, kv.2 ≠ none) := by
  constructor
  · constructor
    · exact List.mem_cons_self _ _
    · intro h
      exact ((c7_no_none_params
          [("limit", (none : Option Int)), ("page", some 2)]
          (some 3) none).2.1 _ |>.mp h).2 rfl
  · exact (c7_no_none_params
      [("limit", (none : Option Int)), ("page", some 2)] (some 3) none).2.2

/-! Helper lemmas about column construction by first appearance. -/

lemma mem_insKey (acc : List String) (k c : String) :
    c ∈ insKey acc k ↔ c ∈ acc ∨ c = k := by
  unfold insKey
  split
  · rename_i h
    simp at h
    constructor
    · exact Or.inl
    · rintro (hc | rfl)
      · exact hc
      · exact h
  · simp

lemma insKey_nodup {acc : List String} (h : acc.Nodup) (k : String) :
    (insKey acc k).Nodup := by
  unfold insKey
  split
  · exact h
  · rename_i hc
    simp at hc
    simp [List.nodup_append, h, hc]

lemma foldl_insKey_nodup (r : List (String × PyJson)) :
    ∀ acc : List String, acc.Nodup →
      (r.foldl (fun a kv => insKey a kv.1) acc).Nodup := by
  induction r with
  | nil => intro acc h; exact h
  | cons hd tl ih => intro acc h; exact ih _ (insKey_nodup h hd.1)

lemma mem_foldl_insKey (r : List (String × PyJson)) :
    ∀ (acc : List String) (c : String),
      c ∈ r.foldl (fun a kv => insKey a kv.1) acc ↔
        c ∈ acc ∨ c ∈ r.map Prod.fst := by
  induction r with
  | nil => simp
  | cons hd tl ih =>
      intro acc c
      simp only [List.foldl_cons]
      rw [ih, mem_insKey]
      simp [or_assoc]

lemma foldl_records_nodup (records : List (List (String × PyJson))) :
    ∀ acc : List String, acc.Nodup →
      (records.foldl (fun acc r => r.foldl (fun a kv => insKey a kv.1) acc) acc).Nodup := by
  induction records with
  | nil => intro acc h; exact h
  | cons hd tl ih => intro acc h; exact ih _ (foldl_insKey_nodup hd acc h)

lemma mem_foldl_records (records : List (List (String × PyJson))) :
    ∀ (acc : List String) (c : String),
      c ∈ records.foldl (fun acc r => r.foldl (fun a kv => insKey a kv.1) acc) acc ↔
        c ∈ acc ∨ ∃ r ∈ records, c ∈ r.map Prod.fst := by
  induction records with
  | nil => simp
  | cons hd tl ih =>
      intro acc c
      simp only [List.foldl_cons]
      rw [ih, mem_foldl_insKey]
      simp [or_assoc, exists_eq_or_imp]

lemma unionKeys_nodup (records : List (List (String × PyJson))) :
    (unionKeys records).Nodup :=
  foldl_records_nodup records [] List.nodup_nil

lemma mem_unionKeys (records : List (List (String × PyJson))) (c : String) :
    c ∈ unionKeys records ↔ ∃ r ∈ records, c ∈ r.map Prod.fst := by
  unfold unionKeys
  rw [mem_foldl_records]
  simp

lemma foldl_insKey_fresh (r : List (String × PyJson)) :
    ∀ acc : List String, (∀ kv ∈ r, kv.1 ∉ acc) → (r.map Prod.fst).Nodup →
      r.foldl (fun a kv => insKey a kv.1) acc = acc ++ r.map Prod.fst := by
  induction r with
  | nil => intro acc _ _; simp
  | cons hd tl ih =>
      intro acc hfresh hnd
      simp only [List.foldl_cons]
      have h1 : insKey acc hd.1 = acc ++ [hd.1] := by
        unfold insKey
        rw [if_neg]
        simp [hfresh hd (List.mem_cons_self _ _)]
      have hnd' : (hd.1 :: tl.map Prod.fst).Nodup := by
        rw [List.map_cons] at hnd; exact hnd
      rw [h1, ih]
      · simp
      · intro kv hkv
        simp only [List.mem_append, List.mem_singleton]
        rintro (hmem | hEq)
        · exact hfresh kv (List.mem_cons_of_mem _ hkv) hmem
        · exact (List.nodup_cons.mp hnd').1
            (hEq ▸ List.mem_map_of_mem Prod.fst hkv)
      · exact (List.nodup_cons.mp hnd').2

lemma unionKeys_single (d : List (String × PyJson))
    (hnd : (d.map Prod.fst).Nodup) : unionKeys [d] = d.map Prod.fst := by
  unfold unionKeys
  simp only [List.foldl_cons, List.foldl_nil]
  rw [foldl_insKey_fresh d [] (by simp) hnd]
  simp

/-- C5: the tabular projection turns a single mapping with unique keys into
a one-row table with one column per key in order; a list of records into a
table whose columns are the union of the record keys in first-appearance
order, without duplicates, with one row per record; the empty list into the
zero-row zero-column table; and any other input into a TypeError. -/
theorem c5_tabular_projection (d : List (String × PyJson))
    (records : List (List (String × PyJson))) (v : PyJson)
    (hnd : (d.map Prod.fst).Nodup) :
    response_to_df (.dict d) =
      .ok ⟨d.map Prod.fst, [(d.map Prod.fst).map (lookupField d)]⟩ ∧
    response_to_df (.dict [("x", .num 1)]) = .ok ⟨["x"], [[some (.num 1)]]⟩ ∧
    (∃ t, response_to_df (.list records) = .ok t ∧
        t.cols = unionKeys records ∧
        t.cols.Nodup ∧
        (∀ c, c ∈ t.cols ↔ ∃ r ∈ records, c ∈ r.map Prod.fst) ∧
        t.rows.length = records.length) ∧
    response_to_df (.list []) = .ok ⟨[], []⟩ ∧
    response_to_df (.other v) =
      .error ⟨.typeError, "Response must be a dictionary or a list of dictionaries"⟩ := by
  refine ⟨?_, rfl, ?_, rfl, rfl⟩
  · simp [response_to_df, dataFrameOfRecords, unionKeys_single d hnd]
  · cases hrec : records.isEmpty
    · refine ⟨dataFrameOfRecords records, ?_, rfl, unionKeys_nodup records,
        mem_unionKeys records, by simp [dataFrameOfRecords]⟩
      simp [response_to_df, hrec]
    · have : records = [] := List.isEmpty_iff.mp hrec
      subst this
      exact ⟨⟨[], []⟩, by simp [response_to_df], rfl, List.nodup_nil, by simp, rfl⟩

/-- Closed instance of c5_tabular_projection at a two-record list with
differing keys. -/
theorem c5_tabular_projection_witness :
    response_to_df (.dict [("x", .num 1)]) = .ok ⟨["x"], [[some (.num 1)]]⟩ ∧
    (∃ t, response_to_df (.list [[("a", .num 1)], [("b", .num 2), ("a", .num 3)]]) = .ok t ∧
        t.cols = unionKeys [[("a", .num 1)], [("b", .num 2), ("a", .num 3)]] ∧
        t.cols.Nodup ∧
        (∀ c, c ∈ t.cols ↔
          ∃ r ∈ [[("a", PyJson.num 1)], [("b", .num 2), ("a", .num 3)]], c ∈ r.map Prod.fst) ∧
        t.rows.length = 2) :=
  ⟨(c5_tabular_projection [("x", .num 1)]
      [[("a", .num 1)], [("b", .num 2), ("a", .num 3)]] .null (by simp)).2.1,
   (c5_tabular_projection [("x", .num 1)]
      [[("a", .num 1)], [("b", .num 2), ("a", .num 3)]] .null (by simp)).2.2.1⟩

/-- C8 counterexample: the empty string is not a valid date, yet passing it
as the from_date of the chart facade raises no validation failure at all:
the `if from_date:` truthiness guard silently skips the falsy empty string
and the request proceeds to the network with the date omitted. -/
theorem c8_counterexample :
    validate_date "" = false ∧
    chartBasicParams "AAPL" (some (.str "")) none = .ok [("symbol", "AAPL")] ∧
    ∀ e, chartBasicParams "AAPL" (some (.str "")) none ≠ .error e := by
  refine ⟨rfl, rfl, ?_⟩
  intro e h
  exact Except.noConfusion h

/-- C8 (amended): for every facade call given a truthy date parameter (a
non-empty string, a temporal object, or a truthy value of another type):
a non-empty string that is not a valid year-month-day calendar date raises
the ValueError of format_date while building the parameters, before any
network call; a valid date string is passed through unchanged; a temporal
object is formatted to its zero-padded year-month-day string; and a truthy
value of any other type raises the TypeError of format_date. A falsy date
parameter (None, the empty string, or a falsy value of another type) is
silently omitted instead. -/
theorem c8_date_validation (symbol s : String) (y m d : Nat)
    (td : Option DateParam) (hs : s ≠ "") :
    (validate_date s = false →
        chartBasicParams symbol (some (.str s)) td =
          .error ⟨.valueError, "Invalid date format: " ++ s ++ ". Expected: YYYY-MM-DD"⟩) ∧
    (validate_date s = true → format_date (.str s) = .ok s) ∧
    format_date (.dateObj y m d) = .ok (strftimeYMD y m d) ∧
    chartBasicParams symbol (some (.other true)) td =
      .error ⟨.typeError, "Date must be a string or datetime/date object"⟩ ∧
    chartBasicParams symbol (some (.other false)) none = .ok [("symbol", symbol)] := by
    refine ⟨?_, ?_, rfl, rfl, rfl⟩
    · intro hv
      have htr : dateParamTruthy (.str s) = true := by
        simp [dateParamTruthy, hs]
      simp [chartBasicParams, addDateParam, htr, format_date, hv]
    · intro hv
      simp [format_date, hv]

/-- Closed instance of c8_date_validation at the invalid month string from
the specification scenario and at a concrete temporal object. -/
theorem c8_date_validation_witness :
    chartBasicParams "AAPL" (some (.str "2024-13-01")) none =
      .error ⟨.valueError, "Invalid date format: 2024-13-01. Expected: YYYY-MM-DD"⟩ ∧
    format_date (.str "2024-01-31") = .ok "2024-01-31" ∧
    format_date (.dateObj 2024 3 4) = .ok (strftimeYMD 2024 3 4) :=
  ⟨(c8_date_validation "AAPL" "2024-13-01" 2024 3 4 none (by decide)).1 (by decide),
   (c8_date_validation "AAPL" "2024-01-31" 2024 3 4 none (by decide)).2.1 (by decide),
   (c8_date_validation "AAPL" "2024-01-31" 2024 3 4 none (by decide)).2.2.1⟩

/-- C9: the legacy and stable request pipelines compute the same function at
every stage: credential merge, decode (CSV branch, sniff fallback and
empty-value normalization) and boundary error classification coincide on all
inputs, and the only difference is the base URL joined with the endpoint
path, the stable base ending in the stable path segment and the legacy base
being the stable base with that segment replaced by the v3 segment. -/
theorem c9_legacy_equivalence {α : Type} (key : α)
    (p : Option (List (String × α))) (b : Bool) (resp : HttpResponse)
    (e : PyErr) (o : HttpOutcome) (endpoint : String) :
    addApiKeyLegacy key p = addApiKey key p ∧
    decodeBodyLegacy b resp = decodeBody b resp ∧
    pipelineHandlerLegacy e = pipelineHandler e ∧
    runPipelineLegacy b o = runPipeline b o ∧
    getUrl endpoint = urljoin BASE_URL endpoint ∧
    getUrlLegacy endpoint =
      urljoin (pyReplace BASE_URL "/stable/" "/api/v3/") endpoint ∧
    BASE_URL = "https://financialmodelingprep.com" ++ "/stable/" ∧
    legacyBaseUrl = "https://financialmodelingprep.com/api/v3/" := by
  refine ⟨rfl, rfl, rfl, rfl, rfl, rfl, by decide, by decide⟩

/-- C10: the dedicated validation exception class is a subclass of the
package base error and is exported, but every validation failure the
package raises (date formatting, symbol normalization, tabular projection,
credential resolution) is a builtin ValueError or TypeError, neither of
which is a subclass of the package base error, and no operation of the
embedded pipeline produces the validation class: the decoder only raises
the API error class and the boundary handler only introduces the transport
error class. -/
theorem c10_validation_class_unused :
    isInstanceOf .fmpValidationError .fmpError = true ∧
    "FMPValidationError" ∈ packageExports ∧
    isInstanceOf .valueError .fmpError = false ∧
    isInstanceOf .typeError .fmpError = false ∧
    (∀ (p : DateParam) (e : PyErr), format_date p = .error e →
        e.cls = .valueError ∨ e.cls = .typeError) ∧
    (∀ (sp : SymbolsParam) (e : PyErr), validate_symbols sp = .error e →
        e.cls = .typeError) ∧
    (∀ (r : RespValue) (e : PyErr), response_to_df r = .error e →
        e.cls = .typeError) ∧
    (∀ (a env : Option String) (e : PyErr), resolveApiKey a env = .error e →
        e.cls = .valueError) ∧
    (∀ (b : Bool) (resp : HttpResponse) (e : PyErr),
        decodeBody b resp = .error e → e.cls = .fmpAPIError) ∧
    (∀ e : PyErr, (pipelineHandler e).cls = e.cls ∨
        (pipelineHandler e).cls = .fmpRequestError) := by
  refine ⟨rfl, by decide, rfl, rfl, ?_, ?_, ?_, ?_, ?_, ?_⟩
  · intro p e h
    cases p with
    | str s =>
        by_cases hv : validate_date s = true
        · simp [format_date, hv] at h
        · rw [format_date, if_neg (by simpa using hv)] at h
          cases h
          exact Or.inl rfl
    | dateObj y m d => simp [format_date] at h
    | other t =>
        cases h
        exact Or.inr rfl
  · intro sp e h
    cases sp with
    | str s => simp [validate_symbols] at h
    | list l => simp [validate_symbols] at h
    | other => cases h; rfl
  · intro r e h
    cases r with
    | dict d => simp [response_to_df] at h
    | list rs => cases hrs : rs.isEmpty <;> simp [response_to_df, hrs] at h
    | other v => cases h; rfl
  · intro a env e h
    unfold resolveApiKey at h
    cases hp : pyOrStr a env with
    | none => rw [hp] at h; cases h; rfl
    | some s =>
        rw [hp] at h
        by_cases hsE : s = ""
        · simp [hsE] at h
          first
            | (rw [h])
            | (rw [← h])
        · simp [hsE] at h
  · intro b resp e h
    unfold decodeBody at h
    cases b with
    | true =>
        rw [if_pos rfl] at h
        cases hc : resp.csvResult with
        | ok t => rw [hc] at h; cases h
        | error msg => rw [hc] at h; cases h; rfl
    | false =>
        rw [if_neg Bool.false_ne_true] at h
        unfold decodeJsonBody at h
        cases hj : resp.jsonResult with
        | some d =>
            rw [hj] at h
            by_cases ht : (!d.isTruthy && !d.isListOrDict) = true <;>
              simp [ht] at h
        | none =>
            rw [hj] at h
            cases hcs : csvSniff resp.text with
            | false =>
                simp [hcs] at h
                first
                  | (rw [h])
                  | (rw [← h])
            | true =>
                cases hc : resp.csvResult with
                | ok t => simp [hcs, hc] at h
                | error msg =>
                    simp [hcs, hc] at h
                    first
                      | (rw [h])
                      | (rw [← h])
  · intro e
    unfold pipelineHandler
    by_cases hr : isInstanceOf e.cls .requestException = true
    · rw [if_pos hr]; exact Or.inr rfl
    · rw [if_neg hr]
      by_cases hf : isInstanceOf e.cls .fmpError = true
      · rw [if_pos hf]; exact Or.inl rfl
      · rw [if_neg hf]; exact Or.inr rfl

/-- Closed instances of c10_validation_class_unused at concrete inputs of
each validation helper. -/
theorem c10_validation_class_unused_witness :
    ((⟨.typeError, "Date must be a string or datetime/date object"⟩ : PyErr).cls
        = .valueError ∨
      (⟨.typeError, "Date must be a string or datetime/date object"⟩ : PyErr).cls
        = .typeError) ∧
    (⟨.typeError, "Symbols must be a string or a list of strings"⟩ : PyErr).cls
      = .typeError ∧
    (⟨.valueError, apiKeyRequiredMsg⟩ : PyErr).cls = .valueError :=
  ⟨c10_validation_class_unused.2.2.2.2.1 (.other true)
      ⟨.typeError, "Date must be a string or datetime/date object"⟩ rfl,
   c10_validation_class_unused.2.2.2.2.2.1 .other
      ⟨.typeError, "Symbols must be a string or a list of strings"⟩ rfl,
   c10_validation_class_unused.2.2.2.2.2.2.2.1 none none
      ⟨.valueError, apiKeyRequiredMsg⟩ rfl⟩

end Fmpy
